import Mathlib

/-!
Verification development for the email-audit repository.

Strings from the Python source are embedded as `List Char`; Python `None` /
exception control flow is embedded with `Option` / `Except`; Python floats in
the scoring arithmetic are embedded as `ℚ`.  The `json.loads` library call and
pydantic model construction (`schema(**data)`) are external to the repository
and are passed in as abstract parameters `loads : List Char → Option J` and
`validate : J → Option S`; `json.JSONDecodeError` is `loads _ = none` and
`pydantic.ValidationError` is `validate _ = none` (pydantic construction is
atomic: it either raises or yields a fully validated object).
-/

/-- Python `str.strip()`: remove whitespace from both ends. -/
def pyStrip (s : List Char) : List Char :=
  ((s.dropWhile Char.isWhitespace).reverse.dropWhile Char.isWhitespace).reverse

/-- Python `str.lower()` (ASCII provider identifiers in this code base). -/
def pyLower (s : List Char) : List Char :=
  s.map Char.toLower

/-- Python truthiness of an optional string: `None` and `""` are falsy. -/
def pyTruthy : Option (List Char) → Bool
  | none => false
  | some s => s ≠ []

/-- Python `a or b` on optional strings (`""` and `None` are falsy). -/
def pyOrStr (a b : Option (List Char)) : Option (List Char) :=
  if pyTruthy a then a else b

/-- An arbitrary Python exception value (the adapters catch `Exception`
generically, so only its presence matters). -/
structure PyErr where
  msg : List Char
deriving DecidableEq, Repr

/-- Result type of `BaseLLM.ainvoke`: `Optional[BaseModel | str]` —
`None`, a raw string, or a schema-validated structured object. -/
inductive LLMResult (S : Type) where
  | nothing : LLMResult S
  | text : List Char → LLMResult S
  | structured : S → LLMResult S
deriving DecidableEq, Repr

/-- One content block of an Anthropic message; `text = none` models a block
without a `text` attribute (the `hasattr` check in the source). -/
structure AnthropicBlock where
  text : Option (List Char)
deriving DecidableEq, Repr

/-- An Anthropic `Message`: the list of content blocks. -/
structure AnthropicMessage where
  content : List AnthropicBlock
deriving DecidableEq, Repr

/-- The markdown-fence cleanup of `AnthropicLLM.ainvoke` (anthropic_llm.py,
lines 66-72): strip, drop a leading triple-backtick-json fence marker, drop a
trailing triple-backtick, strip again. -/
def cleanedJsonString (raw : List Char) : List Char :=
  let c := pyStrip raw
  let c := if ("```json".toList).isPrefixOf c then c.drop 7 else c
  let c := if ("```".toList).isSuffixOf c then c.take (c.length - 3) else c
  pyStrip c

/-- Embedding of `AnthropicLLM.ainvoke` (anthropic_llm.py, lines 18-94), over one
provider call result.  The second component counts provider calls made (the
source performs exactly one `messages.create` per invocation and has no retry
loop).  The `try/except Exception` wrapper maps any provider-side exception to
`None`. -/
def AnthropicLLM.ainvoke {J S : Type} (loads : List Char → Option J)
    (validate : J → Option S) (schemaGiven : Bool)
    (call : Except PyErr AnthropicMessage) : LLMResult S × Nat :=
  match call with
  | .error _ => (.nothing, 1)
  | .ok resp =>
    match resp.content with
    | [] => (.nothing, 1)
    | block :: _ =>
      match block.text with
      | none => (.nothing, 1)
      | some raw =>
        if raw = [] then (.nothing, 1)
        else if schemaGiven then
          match loads (cleanedJsonString raw) with
          | none => (.text raw, 1)
          | some d =>
            match validate d with
            | none => (.text raw, 1)
            | some v => (.structured v, 1)
        else (.text raw, 1)

/-- The `function` payload of an OpenAI-style tool call. -/
structure ToolFunction where
  name : List Char
  arguments : List Char
deriving DecidableEq, Repr

/-- One tool call of an OpenAI-style chat completion message. -/
structure ChatToolCall where
  function : ToolFunction
deriving DecidableEq, Repr

/-- An OpenAI-style chat completion message: optional text content and the
tool-call list (`None` and `[]` are both falsy in the source's checks, so the
empty list models both). -/
structure ChatMessage where
  content : Option (List Char)
  tool_calls : List ChatToolCall
deriving DecidableEq, Repr

/-- One choice of an OpenAI-style chat completion. -/
structure ChatChoice where
  message : ChatMessage
deriving DecidableEq, Repr

/-- An OpenAI-style chat completion response. -/
structure ChatCompletionResp where
  choices : List ChatChoice
deriving DecidableEq, Repr

/-- Embedding of `GrokLLM.ainvoke` (grok_llm.py, lines 21-83), over one provider
call result; the second component counts provider calls (exactly one
`chat.completions.create` on every path, no retry).  In schema mode the first
tool call is used only when named `structured_output`; JSON or validation
failure yields `None` (not the raw text); exceptions are caught and yield
`None`. -/
def GrokLLM.ainvoke {J S : Type} (loads : List Char → Option J)
    (validate : J → Option S) (schemaGiven : Bool)
    (call : Except PyErr ChatCompletionResp) : LLMResult S × Nat :=
  match call with
  | .error _ => (.nothing, 1)
  | .ok resp =>
    if schemaGiven then
      match resp.choices with
      | [] => (.nothing, 1)
      | choice :: _ =>
        match choice.message.tool_calls with
        | [] => (.nothing, 1)
        | tc :: _ =>
          if tc.function.name = ("structured_output".toList) then
            match loads tc.function.arguments with
            | none => (.nothing, 1)
            | some d =>
              match validate d with
              | none => (.nothing, 1)
              | some v => (.structured v, 1)
          else (.nothing, 1)
    else
      match resp.choices with
      | [] => (.nothing, 1)
      | choice :: _ =>
        match choice.message.content with
        | none => (.nothing, 1)
        | some c => if c = [] then (.nothing, 1) else (.text c, 1)

/-- Embedding of `GroqLLM.ainvoke` (groq_llm.py, lines 84-148): the source duplicates the
Grok control flow verbatim (different endpoint and an extra `max_tokens`
argument, which do not affect the result shape); embedded separately to keep
one definition per source function. -/
def GroqLLM.ainvoke {J S : Type} (loads : List Char → Option J)
    (validate : J → Option S) (schemaGiven : Bool)
    (call : Except PyErr ChatCompletionResp) : LLMResult S × Nat :=
  match call with
  | .error _ => (.nothing, 1)
  | .ok resp =>
    if schemaGiven then
      match resp.choices with
      | [] => (.nothing, 1)
      | choice :: _ =>
        match choice.message.tool_calls with
        | [] => (.nothing, 1)
        | tc :: _ =>
          if tc.function.name = ("structured_output".toList) then
            match loads tc.function.arguments with
            | none => (.nothing, 1)
            | some d =>
              match validate d with
              | none => (.nothing, 1)
              | some v => (.structured v, 1)
          else (.nothing, 1)
    else
      match resp.choices with
      | [] => (.nothing, 1)
      | choice :: _ =>
        match choice.message.content with
        | none => (.nothing, 1)
        | some c => if c = [] then (.nothing, 1) else (.text c, 1)

/-- The environment variables the four adapter constructors read. -/
structure Env where
  openaiKey : Option (List Char)
  anthropicKey : Option (List Char)
  grokKey : Option (List Char)
  groqKey : Option (List Char)
deriving DecidableEq, Repr

/-- One constructed adapter instance, tagged by its concrete class, carrying
the resolved api key, the model name and the temperature fixed at
construction. -/
inductive LLMInstance where
  | openai (apiKey modelName : List Char) (temperature : ℚ)
  | anthropic (apiKey modelName : List Char) (temperature : ℚ)
  | grok (apiKey modelName : List Char) (temperature : ℚ)
  | groq (apiKey modelName : List Char) (temperature : ℚ)
deriving DecidableEq, Repr

/-- Modelled from the spec: the `OpenAILLM` constructor — the file
`openai_llm.py` is absent from src/ (only its import in the factory and its
tests remain).  Per spec §4.2/§6 and the surviving test
(`test_init_no_api_key`), it resolves the key as `api_key or OPENAI_API_KEY`
and fails with a `ValueError` mentioning "OpenAI API key not found" when
neither is available. -/
def OpenAILLM.init (env : Env) (apiKey : Option (List Char))
    (modelName : List Char) (temperature : ℚ) : Except (List Char) LLMInstance :=
  match pyOrStr apiKey env.openaiKey with
  | some k =>
    if k = [] then .error ("OpenAI API key not found. Please set OPENAI_API_KEY environment variable or pass it as an argument.".toList)
    else .ok (.openai k modelName temperature)
  | none => .error ("OpenAI API key not found. Please set OPENAI_API_KEY environment variable or pass it as an argument.".toList)

/-- The `AnthropicLLM.__init__` constructor (anthropic_llm.py, lines 11-16): key is
`api_key or ANTHROPIC_API_KEY`, `ValueError` when falsy. -/
def AnthropicLLM.init (env : Env) (apiKey : Option (List Char))
    (modelName : List Char) (temperature : ℚ) : Except (List Char) LLMInstance :=
  match pyOrStr apiKey env.anthropicKey with
  | some k =>
    if k = [] then .error ("Anthropic API key not found. Please set ANTHROPIC_API_KEY environment variable or pass it as an argument.".toList)
    else .ok (.anthropic k modelName temperature)
  | none => .error ("Anthropic API key not found. Please set ANTHROPIC_API_KEY environment variable or pass it as an argument.".toList)

/-- The `GrokLLM.__init__` constructor (grok_llm.py, lines 11-19). -/
def GrokLLM.init (env : Env) (apiKey : Option (List Char))
    (modelName : List Char) (temperature : ℚ) : Except (List Char) LLMInstance :=
  match pyOrStr apiKey env.grokKey with
  | some k =>
    if k = [] then .error ("Grok API key not found. Please set GROK_API_KEY environment variable or pass it as an argument.".toList)
    else .ok (.grok k modelName temperature)
  | none => .error ("Grok API key not found. Please set GROK_API_KEY environment variable or pass it as an argument.".toList)

/-- The `GroqLLM.__init__` constructor (groq_llm.py, lines 14-38). -/
def GroqLLM.init (env : Env) (apiKey : Option (List Char))
    (modelName : List Char) (temperature : ℚ) : Except (List Char) LLMInstance :=
  match pyOrStr apiKey env.groqKey with
  | some k =>
    if k = [] then .error ("Groq API key not provided and GROQ_API_KEY environment variable not set".toList)
    else .ok (.groq k modelName temperature)
  | none => .error ("Groq API key not provided and GROQ_API_KEY environment variable not set".toList)

/-- The factory error message for an unsupported provider identifier
(llm_factory.py, line 46). -/
def unsupportedProviderMsg (provider : List Char) : List Char :=
  ("Unsupported LLM provider: ".toList) ++ provider ++
    (". Supported providers are \x27openai\x27, \x27anthropic\x27, \x27grok\x27, and \x27groq\x27.".toList)

/-- Embedding of `LLMFactory.create_llm` (llm_factory.py, lines 10-46): lower-case the
provider identifier, dispatch to the matching adapter constructor, and raise
`ValueError` with a message naming the identifier and the supported set
otherwise.  The factory itself only dispatches: it performs no I/O beyond the
environment reads done by the constructors. -/
def LLMFactory.createLLM (env : Env) (provider modelName : List Char)
    (temperature : ℚ) (apiKey : Option (List Char)) : Except (List Char) LLMInstance :=
  let pl := pyLower provider
  if pl = ("openai".toList) then OpenAILLM.init env apiKey modelName temperature
  else if pl = ("anthropic".toList) then AnthropicLLM.init env apiKey modelName temperature
  else if pl = ("grok".toList) then GrokLLM.init env apiKey modelName temperature
  else if pl = ("groq".toList) then GroqLLM.init env apiKey modelName temperature
  else .error (unsupportedProviderMsg provider)

/-- One configured audit step (the dict literals of
`EmailAuditor.audit_steps`, email_auditor.py lines 82-317): `score` is the
step weight (point value). -/
structure AuditStep where
  id : List Char
  title : List Char
  purpose : List Char
  prompt : List Char
  isCritical : Bool
  score : ℚ
  category : List Char
  model : List Char
deriving DecidableEq, Repr

/-- The `StepResult` pydantic model (email_auditor.py, lines 30-38), as
returned by the scoring model. -/
structure StepResult where
  step_id : List Char
  title : List Char
  passed : Bool
  score : ℚ
  analysis : List Char
  reasoning : List Char
  improvements : Option (List Char)
deriving DecidableEq, Repr

/-- A `result_dict` after the metadata-enrichment loop (email_auditor.py,
lines 412-420): the dumped `StepResult` plus the `is_critical`, `category`
and `max_score` keys copied from the matching configured step. -/
structure EnrichedResult where
  base : StepResult
  is_critical : Bool
  category : List Char
  max_score : ℚ
deriving DecidableEq, Repr

/-- The lookup step_metadata.get of audit_email, where step_metadata is the
dict comprehension mapping each step id to its step dict (email_auditor.py,
line 409); a Python dict comprehension keeps the last entry for a duplicated
key, hence the reverse-then-find. -/
def stepMetadataGet (steps : List AuditStep) (sid : List Char) : Option AuditStep :=
  steps.reverse.find? (fun s => s.id = sid)

/-- The enrichment loop (email_auditor.py, lines 410-420): keep exactly the
scoring-model results whose `step_id` matches a configured step, attaching
that step's metadata; unmatched results are dropped. -/
def buildAuditResults (steps : List AuditStep) (results : List StepResult) :
    List EnrichedResult :=
  results.filterMap (fun r =>
    (stepMetadataGet steps r.step_id).map (fun m =>
      ⟨r, m.isCritical, m.category, m.score⟩))

/-- The total_score sum of audit_email: the max_score values of the passed
enriched results (email_auditor.py, line 423). -/
def totalScore (steps : List AuditStep) (results : List StepResult) : ℚ :=
  (((buildAuditResults steps results).filter (fun e => e.base.passed)).map
    (fun e => e.max_score)).sum

/-- The max_score sum of audit_email: the weights of all configured steps
(email_auditor.py, line 424). -/
def maxScoreTotal (steps : List AuditStep) : ℚ :=
  (steps.map (fun s => s.score)).sum

/-- The overall_score computation, guarded against a zero total weight:
(email_auditor.py, line 425). -/
def overallScore (steps : List AuditStep) (results : List StepResult) : ℚ :=
  if maxScoreTotal steps > 0 then totalScore steps results / maxScoreTotal steps
  else 0

/-- Step 4 of `audit_email` (email_auditor.py, lines 409-438) restricted to
the fields the report carries forward: the enriched `detailed_results` list
and the overall `score`. -/
def auditAggregate (steps : List AuditStep) (results : List StepResult) :
    List EnrichedResult × ℚ :=
  (buildAuditResults steps results, overallScore steps results)

/-- The `Email` pydantic model (email_auditor.py, lines 17-24). -/
structure Email where
  sender : List Char
  timestamp : List Char
  recipient : List Char
  cc : List (List Char)
  subject : List Char
  body : List Char
deriving DecidableEq, Repr

/-- The `EmailConversation` pydantic model (email_auditor.py, lines 26-28). -/
structure EmailConversation where
  email_conversations : List Email
deriving DecidableEq, Repr

/-- One entry of the `messages["messages"]` reshaping (email_auditor.py,
lines 361-374); attachments and images are always empty in the source. -/
structure ConversationMessage where
  timestamp : List Char
  sender : List Char
  recipients : List (List Char)
  subject : List Char
  content : List Char
deriving DecidableEq, Repr

/-- The message-reshaping comprehension of `audit_email` (email_auditor.py,
lines 361-374): `recipients = [msg.recipient] + msg.cc`. -/
def buildMessages (conv : EmailConversation) : List ConversationMessage :=
  conv.email_conversations.map (fun m =>
    ⟨m.timestamp, m.sender, m.recipient :: m.cc, m.subject, m.body⟩)

/-- The outcomes of the three role-client calls an audit run can make; each
is either a validated object, a `None` result (which the orchestrator then
trips over with an `AttributeError`), or a raised exception. -/
structure PipelineOracle where
  structureRes : Except PyErr (Option EmailConversation)
  scoreRes : Except PyErr (Option (List StepResult))
  judgeRes : Except PyErr (Option (List StepResult))
deriving Repr

/-- The `AttributeError` raised when a stage result is `None` and the source
immediately dereferences it (`structured_data.email_conversations`,
`comprehensive_report.results`). -/
def noneAttrErr : PyErr :=
  ⟨("AttributeError: NoneType object has no attribute".toList)⟩

/-- Modelled from the spec: the Judge stage (spec §4.4) is absent from the
code under src/ — `audit_email` there goes straight from Score to Aggregate.
Per the spec, the judge role is invoked once with a refined-report schema; a
judge call that throws or does not yield a validated report falls back to the
Score-stage report unchanged (never a partial merge). -/
def judgeStage (judgeRes : Except PyErr (Option (List StepResult)))
    (scoreResults : List StepResult) : List StepResult :=
  match judgeRes with
  | .ok (some refined) => refined
  | .ok none => scoreResults
  | .error _ => scoreResults

/-- Modelled from the spec: the full staged audit run.  Structure, Score and
Aggregate follow `EmailAuditor.audit_email` (email_auditor.py, lines
344-442): a structuring failure (raised, or a `None` result dereferenced)
propagates out of the `except`-and-`raise` wrapper and aborts the audit; the
Judge stage between Score and Aggregate is absent from src/ and is inserted
per spec §4.4 via `judgeStage`.  The `Nat` triple counts the calls made on
the primary (structure), reasoning (score) and judge role clients. -/
def auditEmailPipeline (steps : List AuditStep) (o : PipelineOracle) :
    Except PyErr (List EnrichedResult × ℚ) × (Nat × Nat × Nat) :=
  match o.structureRes with
  | .error e => (.error e, (1, 0, 0))
  | .ok none => (.error noneAttrErr, (1, 0, 0))
  | .ok (some _conv) =>
    match o.scoreRes with
    | .error e => (.error e, (1, 1, 0))
    | .ok none => (.error noneAttrErr, (1, 1, 0))
    | .ok (some scoreResults) =>
      (.ok (auditAggregate steps (judgeStage o.judgeRes scoreResults)), (1, 1, 1))

/-- The first configured audit step of the source (weight 3.00), with the
purpose/prompt text abbreviated (it plays no role in aggregation). -/
def demoStep1 : AuditStep :=
  ⟨("logical_itinerary".toList),
   ("Logical Itinerary (Time window, Routing, Connections)".toList),
   ("purpose".toList), ("prompt".toList), false, 3,
   ("PNR Fields".toList), ("reasoning".toList)⟩

/-- The second configured audit step of the source (weight 5.40). -/
def demoStep2 : AuditStep :=
  ⟨("frequent_flyer_loyalty".toList),
   ("Frequent Flyer - Air & Loyalty Membership - Car, Hotels".toList),
   ("purpose".toList), ("prompt".toList), false, 5.4,
   ("PNR Fields".toList), ("detail".toList)⟩

/-- A two-step criteria configuration with weights [3, 5.4]. -/
def demoSteps : List AuditStep := [demoStep1, demoStep2]

/-- Scoring-model results with fractional scores [1.0, 0.5]; the passed flags
follow the instructed rule `passed = (score >= 0.7)`. -/
def demoResults : List StepResult :=
  [⟨("logical_itinerary".toList), ("Logical Itinerary".toList), true, 1,
    ("analysis".toList), ("reasons".toList), none⟩,
   ⟨("frequent_flyer_loyalty".toList), ("Frequent Flyer".toList), false, 0.5,
    ("analysis".toList), ("reasons".toList), none⟩]

lemma buildAuditResults_cons (steps : List AuditStep) (r : StepResult)
    (rs : List StepResult) :
    buildAuditResults steps (r :: rs) =
      match stepMetadataGet steps r.step_id with
      | some m => ⟨r, m.isCritical, m.category, m.score⟩ :: buildAuditResults steps rs
      | none => buildAuditResults steps rs := by
  cases h : stepMetadataGet steps r.step_id <;>
    simp [buildAuditResults, List.filterMap_cons, h]

lemma totalScore_eq_filtered_sum (steps : List AuditStep) :
    ∀ results : List StepResult,
      totalScore steps results =
        ((results.filter (fun r =>
            r.passed && (stepMetadataGet steps r.step_id).isSome)).map
          (fun r => ((stepMetadataGet steps r.step_id).map AuditStep.score).getD 0)).sum := by
  intro results
  induction results with
  | nil => simp [totalScore, buildAuditResults]
  | cons r rs ih =>
    unfold totalScore at ih ⊢
    rw [buildAuditResults_cons]
    cases h : stepMetadataGet steps r.step_id with
    | none => simpa [List.filter_cons, h] using ih
    | some m =>
      cases hp : r.passed <;>
        simp [List.filter_cons, h, hp, ih]

lemma buildAuditResults_map_base (steps : List AuditStep) :
    ∀ results : List StepResult,
      (buildAuditResults steps results).map (fun e => e.base) =
        results.filter (fun r => (stepMetadataGet steps r.step_id).isSome) := by
  intro results
  induction results with
  | nil => simp [buildAuditResults]
  | cons r rs ih =>
    rw [buildAuditResults_cons]
    cases h : stepMetadataGet steps r.step_id <;>
      simp [List.filter_cons, h, ih]

lemma mem_buildAuditResults {steps : List AuditStep} {results : List StepResult}
    {e : EnrichedResult} (he : e ∈ buildAuditResults steps results) :
    ∃ r ∈ results, ∃ m, stepMetadataGet steps r.step_id = some m ∧
      e = ⟨r, m.isCritical, m.category, m.score⟩ := by
  obtain ⟨r, hr, hfr⟩ := List.mem_filterMap.mp he
  obtain ⟨m, hm, hme⟩ := Option.map_eq_some'.mp hfr
  exact ⟨r, hr, m, hm, hme.symm⟩

/-- C1 (corrected claim): the Aggregate stage computes the sum of the weights
of the passed, matched criteria divided by the total weight of all configured
steps — a pass/fail-weighted ratio, not a weighted average of fractional
scores; on weights [3, 5.4] with scores [1.0, 0.5] it yields 3/8.4 = 5/14. -/
theorem overallScore_eq_passed_weight_formula :
    (∀ (steps : List AuditStep) (results : List StepResult),
      overallScore steps results =
        if maxScoreTotal steps > 0 then
          ((results.filter (fun r =>
              r.passed && (stepMetadataGet steps r.step_id).isSome)).map
            (fun r => ((stepMetadataGet steps r.step_id).map AuditStep.score).getD 0)).sum
            / maxScoreTotal steps
        else 0)
    ∧ overallScore demoSteps demoResults = 5 / 14 := by
  constructor
  · intro steps results
    rw [overallScore, totalScore_eq_filtered_sum]
  · norm_num [overallScore, totalScore, maxScoreTotal, buildAuditResults,
      stepMetadataGet, demoSteps, demoStep1, demoStep2, demoResults,
      List.filterMap, List.filter, List.find?]

/-- C1 counterexample: on criteria weights [3, 5.4] and fractional scores
[1.0, 0.5] the code returns 5/14 = 3/8.4, not the weighted average
5.7/8.4 = 57/84 the claim asserts. -/
theorem overallScore_not_weighted_average :
    overallScore demoSteps demoResults = 5 / 14 ∧
      ¬ overallScore demoSteps demoResults = 57 / 84 := by
  norm_num [overallScore, totalScore, maxScoreTotal, buildAuditResults,
    stepMetadataGet, demoSteps, demoStep1, demoStep2, demoResults,
    List.filterMap, List.filter, List.find?]

/-- C9: with an empty criteria configuration the aggregation totals over no
steps, the `max_score > 0` guard takes the `else 0` branch (no division by
zero), and the audit reports an empty detailed-results list with an overall
score of exactly 0, whatever the scoring model returned. -/
theorem auditAggregate_empty_criteria :
    (∀ results : List StepResult, auditAggregate [] results = ([], 0))
    ∧ maxScoreTotal [] = 0 := by
  refine ⟨fun results => ?_, rfl⟩
  have hb : buildAuditResults [] results = [] := by
    simp [buildAuditResults, stepMetadataGet]
  simp [auditAggregate, overallScore, maxScoreTotal, hb]

/-- C10: every entry of `detailed_results` carries the id of some configured
step together with that step's `isCritical`, `category` and weight, and the
underlying `StepResult`s kept are exactly those whose `step_id` matches a
configured step — a scoring-model result with an unmatched `step_id` is
silently dropped from the detailed results (and hence from all aggregation,
which only reads the filtered list). -/
theorem auditAggregate_detailed_results_matched_only
    (steps : List AuditStep) (results : List StepResult) :
    ((auditAggregate steps results).1.all (fun e =>
        decide (∃ s ∈ steps, s.id = e.base.step_id ∧
          e.is_critical = s.isCritical ∧ e.category = s.category ∧
          e.max_score = s.score)) = true)
    ∧ (auditAggregate steps results).1.map (fun e => e.base) =
        results.filter (fun r => (stepMetadataGet steps r.step_id).isSome) := by
  constructor
  · rw [List.all_eq_true]
    intro e he
    obtain ⟨r, _, m, hm, hme⟩ := mem_buildAuditResults he
    refine decide_eq_true ⟨m, ?_, ?_, ?_⟩
    · exact List.mem_reverse.mp (List.mem_of_find?_eq_some hm)
    · have := List.find?_some hm
      subst hme
      exact of_decide_eq_true this
    · subst hme; exact ⟨rfl, rfl, rfl⟩
  · exact buildAuditResults_map_base steps results

/-- A scoring-model result sitting exactly on the 0.7 boundary but flagged
not-passed: the pydantic schema accepts it and the code copies it through. -/
def boundaryResults : List StepResult :=
  [⟨("logical_itinerary".toList), ("Logical Itinerary".toList), false, 0.7,
    ("analysis".toList), ("reasons".toList), none⟩]

/-- C8 counterexample: the code never computes or checks `passed` from
`score` — both come from the scoring model and are copied through — so a
validated report entry with score exactly 0.7 and `passed = false` reaches
the final report unchanged, refuting the claimed iff at the inclusive
boundary. -/
theorem final_report_pass_boundary_not_enforced :
    (auditAggregate demoSteps boundaryResults).1.map
        (fun e => (e.base.score, e.base.passed)) = [((0.7 : ℚ), false)]
    ∧ (auditAggregate demoSteps boundaryResults).1.all
        (fun e => e.base.passed == decide ((0.7 : ℚ) ≤ e.base.score)) = false := by
  refine ⟨?_, ?_⟩ <;>
    simp [auditAggregate, buildAuditResults, stepMetadataGet, demoSteps,
      demoStep1, demoStep2, boundaryResults, List.filterMap, List.find?,
      List.all]

/-- C8 (corrected claim): the aggregation copies the scoring model's `passed`
and `score` fields through unchanged, so every entry of the final report
satisfies `passed ↔ score ≥ 0.7` (inclusive at 0.7) exactly when the
scoring model's validated output already satisfies it; the code itself never
recomputes or enforces the boundary. -/
theorem auditAggregate_preserves_pass_boundary
    (steps : List AuditStep) (results : List StepResult)
    (h : results.all (fun r => r.passed == decide ((0.7 : ℚ) ≤ r.score)) = true) :
    (auditAggregate steps results).1.all
      (fun e => e.base.passed == decide ((0.7 : ℚ) ≤ e.base.score)) = true := by
  rw [List.all_eq_true] at h ⊢
  intro e he
  obtain ⟨r, hr, m, _, hme⟩ := mem_buildAuditResults he
  subst hme
  exact h r hr

/-- C8 witness: the boundary-respecting demo report is preserved through the
Aggregate stage. -/
theorem auditAggregate_preserves_pass_boundary_witness :
    demoResults.all (fun r => r.passed == decide ((0.7 : ℚ) ≤ r.score)) = true
    ∧ (auditAggregate demoSteps demoResults).1.all
        (fun e => e.base.passed == decide ((0.7 : ℚ) ≤ e.base.score)) = true := by
  have h : demoResults.all (fun r => r.passed == decide ((0.7 : ℚ) ≤ r.score)) = true := by
    norm_num [demoResults, List.all]
  exact ⟨h, auditAggregate_preserves_pass_boundary demoSteps demoResults h⟩

/-- A generic provider-side exception used in concrete runs. -/
def e0 : PyErr := ⟨("connection error".toList)⟩

/-- An audit run whose structuring call raises. -/
def oStructRaise : PipelineOracle := ⟨.error e0, .ok (some []), .ok (some [])⟩

/-- An audit run whose structuring call returns an unvalidated `None`. -/
def oStructNone : PipelineOracle := ⟨.ok none, .ok (some []), .ok (some [])⟩

/-- An audit run whose judge call raises. -/
def oJudgeRaise : PipelineOracle :=
  ⟨.ok (some ⟨[]⟩), .ok (some demoResults), .error e0⟩

/-- An audit run whose judge call returns an unvalidated `None`. -/
def oJudgeNone : PipelineOracle :=
  ⟨.ok (some ⟨[]⟩), .ok (some demoResults), .ok none⟩

/-- C5: when the Structure stage does not yield a validated conversation
object — the structuring call raises, or returns `None` (tripped over as an
`AttributeError`) — the whole audit call fails with a propagated error (the
raised exception itself in the first case) and the reasoning (Score) and
judge role clients are called zero times. -/
theorem structure_failure_aborts_audit (steps : List AuditStep)
    (o : PipelineOracle) (e : PyErr) :
    (o.structureRes = .error e →
      (auditEmailPipeline steps o).1 = .error e
        ∧ (auditEmailPipeline steps o).2.2 = (0, 0))
    ∧ (o.structureRes = .ok none →
      (auditEmailPipeline steps o).1 = .error noneAttrErr
        ∧ (auditEmailPipeline steps o).2.2 = (0, 0)) := by
  constructor <;> intro h <;> simp [auditEmailPipeline, h]

/-- C5 witness: concrete runs for both structuring-failure modes. -/
theorem structure_failure_aborts_audit_witness :
    ((auditEmailPipeline [] oStructRaise).1 = .error e0
      ∧ (auditEmailPipeline [] oStructRaise).2.2 = (0, 0))
    ∧ ((auditEmailPipeline [] oStructNone).1 = .error noneAttrErr
      ∧ (auditEmailPipeline [] oStructNone).2.2 = (0, 0)) :=
  ⟨(structure_failure_aborts_audit [] oStructRaise e0).1 rfl,
   (structure_failure_aborts_audit [] oStructNone e0).2 rfl⟩

/-- C4: when Structure and Score both yield validated objects but the Judge
stage raises or returns an unvalidated result, the final report is exactly
the aggregation of the Score-stage results — no partial merge of judge
output, and the judge failure is not fatal to the audit. -/
theorem judge_failure_falls_back_to_score_report (steps : List AuditStep)
    (o : PipelineOracle) (conv : EmailConversation)
    (scoreResults : List StepResult) (e : PyErr)
    (hs : o.structureRes = .ok (some conv))
    (hc : o.scoreRes = .ok (some scoreResults)) :
    (o.judgeRes = .error e →
      (auditEmailPipeline steps o).1 = .ok (auditAggregate steps scoreResults))
    ∧ (o.judgeRes = .ok none →
      (auditEmailPipeline steps o).1 = .ok (auditAggregate steps scoreResults)) := by
  constructor <;> intro hj <;> simp [auditEmailPipeline, judgeStage, hs, hc, hj]

/-- C4 witness: concrete runs for both judge-failure modes fall back to the
Score-stage aggregation. -/
theorem judge_failure_falls_back_witness :
    (auditEmailPipeline demoSteps oJudgeRaise).1
        = .ok (auditAggregate demoSteps demoResults)
    ∧ (auditEmailPipeline demoSteps oJudgeNone).1
        = .ok (auditAggregate demoSteps demoResults) :=
  ⟨(judge_failure_falls_back_to_score_report demoSteps oJudgeRaise ⟨[]⟩
      demoResults e0 rfl rfl).1 rfl,
   (judge_failure_falls_back_to_score_report demoSteps oJudgeNone ⟨[]⟩
      demoResults e0 rfl rfl).2 rfl⟩

/-- A concrete stand-in for `json.loads` that accepts every payload (the
parsed value is irrelevant to the scenarios it serves). -/
def loadsU : List Char → Option Unit := fun _ => some ()

/-- A concrete stand-in for pydantic construction that always raises
`ValidationError` (well-formed JSON of the wrong shape). -/
def validateNone : Unit → Option Bool := fun _ => none

/-- The malformed structured payload of the source's adapter tests:
well-formed JSON whose `quantity` field has the wrong type. -/
def badArgs : List Char :=
  ("\x7b\x22item\x22: \x22Gadget\x22, \x22quantity\x22: \x22not_an_integer\x22\x7d".toList)

/-- A Grok/Groq response whose single tool call carries `badArgs`. -/
def badToolResp : ChatCompletionResp :=
  ⟨[⟨⟨none, [⟨⟨("structured_output".toList), badArgs⟩⟩]⟩⟩]⟩

/-- C3 counterexample: no `ProviderError` (or any error channel) exists in
the adapters — the `except Exception` handler logs and returns `None`, so a
transport failure is observationally identical to a benign empty response:
the error is silently swallowed rather than propagated. -/
theorem provider_error_swallowed_to_none :
    AnthropicLLM.ainvoke loadsU validateNone true (.error e0)
        = AnthropicLLM.ainvoke loadsU validateNone true (.ok ⟨[]⟩)
    ∧ (AnthropicLLM.ainvoke loadsU validateNone true (.error e0)).1
        = LLMResult.nothing
    ∧ GrokLLM.ainvoke loadsU validateNone true (.error e0)
        = GrokLLM.ainvoke loadsU validateNone true (.ok ⟨[]⟩)
    ∧ GroqLLM.ainvoke loadsU validateNone true (.error e0)
        = GroqLLM.ainvoke loadsU validateNone true (.ok ⟨[]⟩) :=
  ⟨rfl, rfl, rfl, rfl⟩

/-- C3 (corrected claim): every provider adapter catches any transport- or
provider-side exception raised during its single provider call, logs it, and
returns `None` to the caller — never raising, never retrying (exactly one
provider call is made), and never distinguishing the failure from an empty
response; no `ProviderError` kind exists in the code. -/
theorem ainvoke_provider_error_returns_none_no_retry {J S : Type}
    (loads : List Char → Option J) (validate : J → Option S)
    (schemaGiven : Bool) (e : PyErr) :
    AnthropicLLM.ainvoke loads validate schemaGiven (.error e) = (.nothing, 1)
    ∧ GrokLLM.ainvoke loads validate schemaGiven (.error e) = (.nothing, 1)
    ∧ GroqLLM.ainvoke loads validate schemaGiven (.error e) = (.nothing, 1) :=
  ⟨rfl, rfl, rfl⟩

/-- C2 counterexample: on a well-formed JSON tool-call payload that fails
schema validation, `GrokLLM.ainvoke` returns `None`, not the raw text
payload the claim asserts for every adapter (`GroqLLM` behaves the same). -/
theorem grok_validation_failure_returns_none :
    (GrokLLM.ainvoke loadsU validateNone true (.ok badToolResp)).1
        = LLMResult.nothing
    ∧ ¬ (GrokLLM.ainvoke loadsU validateNone true (.ok badToolResp)).1
        = LLMResult.text badArgs
    ∧ (GroqLLM.ainvoke loadsU validateNone true (.ok badToolResp)).1
        = LLMResult.nothing := by
  refine ⟨rfl, ?_, rfl⟩
  intro h
  simp [GrokLLM.ainvoke, loadsU, validateNone, badToolResp] at h

lemma anthropic_structured_inv {J S : Type} (loads : List Char → Option J)
    (validate : J → Option S) (b : Bool) (call : Except PyErr AnthropicMessage)
    (v : S) (h : (AnthropicLLM.ainvoke loads validate b call).1 = .structured v) :
    ∃ d, validate d = some v := by
  cases call with
  | error e => simp [AnthropicLLM.ainvoke] at h
  | ok resp =>
    obtain ⟨content⟩ := resp
    cases content with
    | nil => simp [AnthropicLLM.ainvoke] at h
    | cons blk rest =>
      obtain ⟨t⟩ := blk
      cases t with
      | none => simp [AnthropicLLM.ainvoke] at h
      | some raw =>
        by_cases hr : raw = []
        · simp [AnthropicLLM.ainvoke, hr] at h
        · cases b with
          | false => simp [AnthropicLLM.ainvoke, hr] at h
          | true =>
            cases hl : loads (cleanedJsonString raw) with
            | none => simp [AnthropicLLM.ainvoke, hr, hl] at h
            | some d =>
              cases hv : validate d with
              | none => simp [AnthropicLLM.ainvoke, hr, hl, hv] at h
              | some v2 =>
                simp [AnthropicLLM.ainvoke, hr, hl, hv] at h
                exact ⟨d, by rw [hv, h]⟩

lemma grok_structured_inv {J S : Type} (loads : List Char → Option J)
    (validate : J → Option S) (b : Bool) (call : Except PyErr ChatCompletionResp)
    (v : S) (h : (GrokLLM.ainvoke loads validate b call).1 = .structured v) :
    ∃ d, validate d = some v := by
  cases call with
  | error e => simp [GrokLLM.ainvoke] at h
  | ok resp =>
    obtain ⟨choices⟩ := resp
    cases b with
    | false =>
      cases choices with
      | nil => simp [GrokLLM.ainvoke] at h
      | cons choice rest =>
        cases hc : choice.message.content with
        | none => simp [GrokLLM.ainvoke, hc] at h
        | some c =>
          by_cases he : c = [] <;> simp [GrokLLM.ainvoke, hc, he] at h
    | true =>
      cases choices with
      | nil => simp [GrokLLM.ainvoke] at h
      | cons choice rest =>
        cases htc : choice.message.tool_calls with
        | nil => simp [GrokLLM.ainvoke, htc] at h
        | cons tc more =>
          by_cases hn : tc.function.name = ("structured_output".toList)
          · cases hl : loads tc.function.arguments with
            | none => simp [GrokLLM.ainvoke, htc, hn, hl] at h
            | some d =>
              cases hv : validate d with
              | none => simp [GrokLLM.ainvoke, htc, hn, hl, hv] at h
              | some v2 =>
                simp [GrokLLM.ainvoke, htc, hn, hl, hv] at h
                exact ⟨d, by rw [hv, h]⟩
          · simp only [String.toList] at hn
            simp [GrokLLM.ainvoke, htc, hn] at h

lemma groq_structured_inv {J S : Type} (loads : List Char → Option J)
    (validate : J → Option S) (b : Bool) (call : Except PyErr ChatCompletionResp)
    (v : S) (h : (GroqLLM.ainvoke loads validate b call).1 = .structured v) :
    ∃ d, validate d = some v := by
  cases call with
  | error e => simp [GroqLLM.ainvoke] at h
  | ok resp =>
    obtain ⟨choices⟩ := resp
    cases b with
    | false =>
      cases choices with
      | nil => simp [GroqLLM.ainvoke] at h
      | cons choice rest =>
        cases hc : choice.message.content with
        | none => simp [GroqLLM.ainvoke, hc] at h
        | some c =>
          by_cases he : c = [] <;> simp [GroqLLM.ainvoke, hc, he] at h
    | true =>
      cases choices with
      | nil => simp [GroqLLM.ainvoke] at h
      | cons choice rest =>
        cases htc : choice.message.tool_calls with
        | nil => simp [GroqLLM.ainvoke, htc] at h
        | cons tc more =>
          by_cases hn : tc.function.name = ("structured_output".toList)
          · cases hl : loads tc.function.arguments with
            | none => simp [GroqLLM.ainvoke, htc, hn, hl] at h
            | some d =>
              cases hv : validate d with
              | none => simp [GroqLLM.ainvoke, htc, hn, hl, hv] at h
              | some v2 =>
                simp [GroqLLM.ainvoke, htc, hn, hl, hv] at h
                exact ⟨d, by rw [hv, h]⟩
          · simp only [String.toList] at hn
            simp [GroqLLM.ainvoke, htc, hn] at h

/-- C2 (corrected claim): on a payload that parses as JSON but fails schema
validation, the Anthropic adapter returns the raw text payload, while the
Grok and Groq adapters return `None`; no adapter raises (each is a total
function of its single call result), and no adapter ever returns a partially
populated structured object — a `structured` result only arises from a fully
successful validation. -/
theorem ainvoke_schema_validation_failure_behavior {J S : Type}
    (loads : List Char → Option J) (validate : J → Option S)
    (raw args : List Char) (d d2 : J)
    (hraw : raw ≠ [])
    (hl : loads (cleanedJsonString raw) = some d) (hv : validate d = none)
    (hl2 : loads args = some d2) (hv2 : validate d2 = none) :
    (AnthropicLLM.ainvoke loads validate true (.ok ⟨[⟨some raw⟩]⟩)).1
        = LLMResult.text raw
    ∧ (GrokLLM.ainvoke loads validate true
        (.ok ⟨[⟨⟨none, [⟨⟨("structured_output".toList), args⟩⟩]⟩⟩]⟩)).1
        = LLMResult.nothing
    ∧ (GroqLLM.ainvoke loads validate true
        (.ok ⟨[⟨⟨none, [⟨⟨("structured_output".toList), args⟩⟩]⟩⟩]⟩)).1
        = LLMResult.nothing
    ∧ (∀ (call : Except PyErr AnthropicMessage) (v : S),
        (AnthropicLLM.ainvoke loads validate true call).1 = .structured v →
          ∃ dd, validate dd = some v)
    ∧ (∀ (call : Except PyErr ChatCompletionResp) (v : S),
        (GrokLLM.ainvoke loads validate true call).1 = .structured v →
          ∃ dd, validate dd = some v)
    ∧ (∀ (call : Except PyErr ChatCompletionResp) (v : S),
        (GroqLLM.ainvoke loads validate true call).1 = .structured v →
          ∃ dd, validate dd = some v) := by
  refine ⟨?_, ?_, ?_, ?_, ?_, ?_⟩
  · simp [AnthropicLLM.ainvoke, hraw, hl, hv]
  · simp [GrokLLM.ainvoke, hl2, hv2]
  · simp [GroqLLM.ainvoke, hl2, hv2]
  · exact fun call v h => anthropic_structured_inv loads validate true call v h
  · exact fun call v h => grok_structured_inv loads validate true call v h
  · exact fun call v h => groq_structured_inv loads validate true call v h

/-- C2 witness: the malformed-payload scenario of the source's own adapter
tests, run through all three adapters. -/
theorem ainvoke_schema_validation_failure_witness :
    (AnthropicLLM.ainvoke loadsU validateNone true (.ok ⟨[⟨some badArgs⟩]⟩)).1
        = LLMResult.text badArgs
    ∧ (GrokLLM.ainvoke loadsU validateNone true
        (.ok ⟨[⟨⟨none, [⟨⟨("structured_output".toList), badArgs⟩⟩]⟩⟩]⟩)).1
        = LLMResult.nothing
    ∧ (GroqLLM.ainvoke loadsU validateNone true
        (.ok ⟨[⟨⟨none, [⟨⟨("structured_output".toList), badArgs⟩⟩]⟩⟩]⟩)).1
        = LLMResult.nothing := by
  have h := ainvoke_schema_validation_failure_behavior loadsU validateNone
    badArgs badArgs () () (by decide) rfl rfl rfl rfl
  exact ⟨h.1, h.2.1, h.2.2.1⟩

/-- An environment carrying all four provider keys. -/
def envAllKeys : Env :=
  ⟨some ("key-openai".toList), some ("key-anthropic".toList),
   some ("key-grok".toList), some ("key-groq".toList)⟩

lemma isWithin_append_left {l t : List Char} (h : l <:+: t) (s : List Char) :
    l <:+: (s ++ t) := by
  obtain ⟨a, b, rfl⟩ := h
  exact ⟨s ++ a, b, by simp⟩

/-- C6: for each of the four supported provider identifiers under any
letter-casing (via `provider.lower()`), the factory returns a constructed
adapter of the matching concrete class (given a resolvable api key, since the
constructors raise otherwise); for any other identifier it fails with a
`ValueError` whose message contains the received identifier and each of the
four supported identifiers.  The factory itself is pure dispatch: the only
effects are the constructors' environment reads, no network I/O. -/
theorem createLLM_dispatch_and_unsupported (env : Env)
    (provider modelName : List Char) (t : ℚ) (apiKey : Option (List Char)) :
    (pyLower provider = ("openai".toList) →
      pyTruthy (pyOrStr apiKey env.openaiKey) = true →
      LLMFactory.createLLM env provider modelName t apiKey
        = .ok (.openai ((pyOrStr apiKey env.openaiKey).getD []) modelName t))
    ∧ (pyLower provider = ("anthropic".toList) →
      pyTruthy (pyOrStr apiKey env.anthropicKey) = true →
      LLMFactory.createLLM env provider modelName t apiKey
        = .ok (.anthropic ((pyOrStr apiKey env.anthropicKey).getD []) modelName t))
    ∧ (pyLower provider = ("grok".toList) →
      pyTruthy (pyOrStr apiKey env.grokKey) = true →
      LLMFactory.createLLM env provider modelName t apiKey
        = .ok (.grok ((pyOrStr apiKey env.grokKey).getD []) modelName t))
    ∧ (pyLower provider = ("groq".toList) →
      pyTruthy (pyOrStr apiKey env.groqKey) = true →
      LLMFactory.createLLM env provider modelName t apiKey
        = .ok (.groq ((pyOrStr apiKey env.groqKey).getD []) modelName t))
    ∧ (pyLower provider ∉ [("openai".toList), ("anthropic".toList),
        ("grok".toList), ("groq".toList)] →
      LLMFactory.createLLM env provider modelName t apiKey
        = .error (unsupportedProviderMsg provider))
    ∧ provider <:+: unsupportedProviderMsg provider
    ∧ ("openai".toList) <:+: unsupportedProviderMsg provider
    ∧ ("anthropic".toList) <:+: unsupportedProviderMsg provider
    ∧ ("grok".toList) <:+: unsupportedProviderMsg provider
    ∧ ("groq".toList) <:+: unsupportedProviderMsg provider := by
  have hsuffix : ∀ l : List Char,
      l <:+: ((". Supported providers are \x27openai\x27, \x27anthropic\x27, \x27grok\x27, and \x27groq\x27.".toList)) →
      l <:+: unsupportedProviderMsg provider := by
    intro l hl
    have h1 := isWithin_append_left hl provider
    have h2 := isWithin_append_left h1 ("Unsupported LLM provider: ".toList)
    simpa [unsupportedProviderMsg] using h2
  refine ⟨?_, ?_, ?_, ?_, ?_, ?_, ?_, ?_, ?_, ?_⟩
  · intro hp hk
    cases hpo : pyOrStr apiKey env.openaiKey with
    | none => rw [hpo] at hk; simp [pyTruthy] at hk
    | some k =>
      rw [hpo] at hk
      simp only [pyTruthy, decide_eq_true_eq] at hk
      simp [LLMFactory.createLLM, hp, OpenAILLM.init, hpo, hk]
  · intro hp hk
    cases hpo : pyOrStr apiKey env.anthropicKey with
    | none => rw [hpo] at hk; simp [pyTruthy] at hk
    | some k =>
      rw [hpo] at hk
      simp only [pyTruthy, decide_eq_true_eq] at hk
      simp [LLMFactory.createLLM, hp, AnthropicLLM.init, hpo, hk]
  · intro hp hk
    cases hpo : pyOrStr apiKey env.grokKey with
    | none => rw [hpo] at hk; simp [pyTruthy] at hk
    | some k =>
      rw [hpo] at hk
      simp only [pyTruthy, decide_eq_true_eq] at hk
      simp [LLMFactory.createLLM, hp, GrokLLM.init, hpo, hk]
  · intro hp hk
    cases hpo : pyOrStr apiKey env.groqKey with
    | none => rw [hpo] at hk; simp [pyTruthy] at hk
    | some k =>
      rw [hpo] at hk
      simp only [pyTruthy, decide_eq_true_eq] at hk
      simp [LLMFactory.createLLM, hp, GroqLLM.init, hpo, hk]
  · intro hns
    have h1 : ¬ pyLower provider = ("openai".toList) := by
      intro h; exact hns (by rw [h]; simp)
    have h2 : ¬ pyLower provider = ("anthropic".toList) := by
      intro h; exact hns (by rw [h]; simp)
    have h3 : ¬ pyLower provider = ("grok".toList) := by
      intro h; exact hns (by rw [h]; simp)
    have h4 : ¬ pyLower provider = ("groq".toList) := by
      intro h; exact hns (by rw [h]; simp)
    simp only [String.toList] at h1 h2 h3 h4
    simp [LLMFactory.createLLM, h1, h2, h3, h4]
  · exact ⟨("Unsupported LLM provider: ".toList),
      (". Supported providers are \x27openai\x27, \x27anthropic\x27, \x27grok\x27, and \x27groq\x27.".toList),
      by simp [unsupportedProviderMsg]⟩
  · exact hsuffix _ (by decide)
  · exact hsuffix _ (by decide)
  · exact hsuffix _ (by decide)
  · exact hsuffix _ (by decide)

/-- C6 witness: mixed-casing identifiers for all four providers construct the
matching adapter classes; an unknown identifier yields the `ValueError`
message. -/
theorem createLLM_dispatch_witness :
    LLMFactory.createLLM envAllKeys ("OpenAI".toList) ("gpt-4".toList) 0 none
        = .ok (.openai ((pyOrStr none envAllKeys.openaiKey).getD [])
            ("gpt-4".toList) 0)
    ∧ LLMFactory.createLLM envAllKeys ("Anthropic".toList) ("claude-3".toList) 0 none
        = .ok (.anthropic ((pyOrStr none envAllKeys.anthropicKey).getD [])
            ("claude-3".toList) 0)
    ∧ LLMFactory.createLLM envAllKeys ("GROK".toList) ("grok-3-beta".toList) 0 none
        = .ok (.grok ((pyOrStr none envAllKeys.grokKey).getD [])
            ("grok-3-beta".toList) 0)
    ∧ LLMFactory.createLLM envAllKeys ("gRoQ".toList) ("llama".toList) 0 none
        = .ok (.groq ((pyOrStr none envAllKeys.groqKey).getD [])
            ("llama".toList) 0)
    ∧ LLMFactory.createLLM envAllKeys ("unsupported".toList) ("m".toList) 0 none
        = .error (unsupportedProviderMsg ("unsupported".toList)) :=
  ⟨(createLLM_dispatch_and_unsupported envAllKeys ("OpenAI".toList)
      ("gpt-4".toList) 0 none).1 (by decide) rfl,
   (createLLM_dispatch_and_unsupported envAllKeys ("Anthropic".toList)
      ("claude-3".toList) 0 none).2.1 (by decide) rfl,
   (createLLM_dispatch_and_unsupported envAllKeys ("GROK".toList)
      ("grok-3-beta".toList) 0 none).2.2.1 (by decide) rfl,
   (createLLM_dispatch_and_unsupported envAllKeys ("gRoQ".toList)
      ("llama".toList) 0 none).2.2.2.1 (by decide) rfl,
   (createLLM_dispatch_and_unsupported envAllKeys ("unsupported".toList)
      ("m".toList) 0 none).2.2.2.2.1 (by decide)⟩

lemma dropWhile_first_false {p : Char → Bool} :
    ∀ (l : List Char) {a : Char} {t : List Char}, l.dropWhile p = a :: t → p a = false := by
  intro l
  induction l with
  | nil => intro a t h; simp [List.dropWhile] at h
  | cons x xs ih =>
    intro a t h
    by_cases hp : p x
    · rw [List.dropWhile_cons_of_pos hp] at h; exact ih h
    · rw [List.dropWhile_cons_of_neg hp] at h
      cases h
      simpa using hp

lemma dropWhile_dropWhile (p : Char → Bool) (x : List Char) :
    (x.dropWhile p).dropWhile p = x.dropWhile p := by
  cases h : x.dropWhile p with
  | nil => rfl
  | cons a t =>
    have ha := dropWhile_first_false x h
    simp [List.dropWhile_cons, ha]

lemma pyStrip_idem (l : List Char) : pyStrip (pyStrip l) = pyStrip l := by
  have h2 : (pyStrip l).reverse.dropWhile Char.isWhitespace = (pyStrip l).reverse := by
    have hx : (pyStrip l).reverse
        = (l.dropWhile Char.isWhitespace).reverse.dropWhile Char.isWhitespace := by
      simp [pyStrip]
    rw [hx, dropWhile_dropWhile]
  have h1 : (pyStrip l).dropWhile Char.isWhitespace = pyStrip l := by
    cases hz : pyStrip l with
    | nil => rfl
    | cons a t =>
      have hsuf : ((l.dropWhile Char.isWhitespace).reverse.dropWhile Char.isWhitespace)
          <:+ (l.dropWhile Char.isWhitespace).reverse := List.dropWhile_suffix _
      have hpre : pyStrip l <+: l.dropWhile Char.isWhitespace := by
        rw [← List.reverse_suffix]
        simpa [pyStrip] using hsuf
      obtain ⟨rest, hrest⟩ := hpre
      rw [hz] at hrest
      have hd : List.dropWhile Char.isWhitespace l = a :: (t ++ rest) := by
        rw [← hrest]; simp
      have ha : Char.isWhitespace a = false := dropWhile_first_false l hd
      simp [List.dropWhile_cons, ha]
  show (((pyStrip l).dropWhile Char.isWhitespace).reverse.dropWhile
      Char.isWhitespace).reverse = pyStrip l
  rw [h1, h2, List.reverse_reverse]

lemma pyStrip_cons_ws (c : Char) (x : List Char) (h : c.isWhitespace = true) :
    pyStrip (c :: x) = pyStrip x := by
  unfold pyStrip
  rw [List.dropWhile_cons_of_pos h]

lemma pyStrip_append_ws (x : List Char) (c : Char) (h : c.isWhitespace = true) :
    pyStrip (x ++ [c]) = pyStrip x := by
  unfold pyStrip
  rw [List.dropWhile_append]
  by_cases he : (x.dropWhile Char.isWhitespace).isEmpty
  · rw [if_pos he]
    have hxe : x.dropWhile Char.isWhitespace = [] := by simpa using he
    rw [hxe]
    simp [List.dropWhile_cons, h]
  · rw [if_neg he]
    rw [List.reverse_append]
    simp only [List.reverse_cons, List.reverse_nil, List.nil_append,
      List.singleton_append]
    rw [List.dropWhile_cons_of_pos h]

lemma fence_suffix_check (raw : List Char) :
    ("```".toList).isSuffixOf ('\n' :: (raw ++ ("\n```".toList))) = true := by
  rw [List.isSuffixOf_iff_suffix]
  exact ⟨'\n' :: (raw ++ ['\n']), by simp⟩

lemma fence_take (raw : List Char) :
    ('\n' :: (raw ++ ("\n```".toList))).take
        (('\n' :: (raw ++ ("\n```".toList))).length - 3)
      = '\n' :: (raw ++ ['\n']) := by
  have hc : '\n' :: (raw ++ ("\n```".toList))
      = ('\n' :: (raw ++ ['\n'])) ++ ("```".toList) := by simp
  rw [hc]
  have hlen : (('\n' :: (raw ++ ['\n'])) ++ ("```".toList)).length - 3
      = ('\n' :: (raw ++ ['\n'])).length := by simp
  rw [hlen, List.take_left]

lemma cleanedJsonString_fenced (raw : List Char) :
    cleanedJsonString (("```json\n".toList) ++ raw ++ ("\n```".toList))
      = pyStrip raw := by
  have hstrip : pyStrip (("```json\n".toList) ++ raw ++ ("\n```".toList))
      = ("```json\n".toList) ++ raw ++ ("\n```".toList) := by
    simp [pyStrip]
  have hpre : ("```json".toList).isPrefixOf
      (("```json\n".toList) ++ raw ++ ("\n```".toList)) = true := by
    rw [List.isPrefixOf_iff_prefix]
    exact ⟨'\n' :: (raw ++ ("\n```".toList)), by simp⟩
  have hdrop : (("```json\n".toList) ++ raw ++ ("\n```".toList)).drop 7
      = '\n' :: (raw ++ ("\n```".toList)) := by
    have h : ("```json\n".toList) ++ raw ++ ("\n```".toList)
        = ("```json".toList) ++ ('\n' :: (raw ++ ("\n```".toList))) := by simp
    rw [h, List.drop_left' (by decide)]
  rw [cleanedJsonString, hstrip, hpre]
  simp only [if_true]
  rw [hdrop, fence_suffix_check raw]
  simp only [if_true]
  rw [fence_take raw]
  rw [pyStrip_cons_ws '\n' (raw ++ ['\n']) (by decide),
    pyStrip_append_ws raw '\n' (by decide)]

lemma cleanedJsonString_plain (raw : List Char)
    (h1 : ("```json".toList).isPrefixOf (pyStrip raw) = false)
    (h2 : ("```".toList).isSuffixOf (pyStrip raw) = false) :
    cleanedJsonString raw = pyStrip raw := by
  rw [cleanedJsonString, h1]
  simp only [if_false, Bool.false_eq_true]
  rw [h2]
  simp only [if_false, Bool.false_eq_true]
  exact pyStrip_idem raw

/-- C7: wrapping a JSON payload in a markdown code fence (triple backticks
with a `json` tag) does not change the structured-extraction result: the
fence cleanup reduces both the fenced and the unfenced payload to the same
stripped string, so the adapter returns the same structured object.  The two
hypotheses on the stripped payload (it does not itself open with a
triple-backtick-json marker or end with a triple backtick) hold for any text
that is a JSON value, which opens with a brace, bracket, quote, digit, sign
or letter and closes with a brace, bracket, quote, digit or letter. -/
theorem ainvoke_fenced_json_equals_unfenced {J S : Type}
    (loads : List Char → Option J) (validate : J → Option S)
    (raw : List Char) (d : J) (v : S)
    (h1 : ("```json".toList).isPrefixOf (pyStrip raw) = false)
    (h2 : ("```".toList).isSuffixOf (pyStrip raw) = false)
    (h3 : raw ≠ [])
    (hl : loads (pyStrip raw) = some d)
    (hv : validate d = some v) :
    AnthropicLLM.ainvoke loads validate true
        (.ok ⟨[⟨some (("```json\n".toList) ++ raw ++ ("\n```".toList))⟩]⟩)
      = AnthropicLLM.ainvoke loads validate true (.ok ⟨[⟨some raw⟩]⟩)
    ∧ (AnthropicLLM.ainvoke loads validate true (.ok ⟨[⟨some raw⟩]⟩)).1
      = LLMResult.structured v := by
  have hfne : ("```json\n".toList) ++ raw ++ ("\n```".toList) ≠ [] := by simp
  have hcf := cleanedJsonString_fenced raw
  have hcu := cleanedJsonString_plain raw h1 h2
  constructor
  · simp at hcf
    simp [AnthropicLLM.ainvoke, h3, hfne, hcf, hcu, hl, hv]
  · simp [AnthropicLLM.ainvoke, h3, hcu, hl, hv]

/-- The fenced-JSON payload of the source's own adapter test
(`test_ainvoke_structured_output_with_markdown_fences`), unfenced form. -/
def jsonGizmo : List Char :=
  ("\x7b\x22item\x22: \x22Gizmo\x22, \x22quantity\x22: 75\x7d".toList)

/-- A concrete stand-in for `json.loads` that returns the text it was given. -/
def loadsId : List Char → Option (List Char) := fun s => some s

/-- A concrete stand-in for pydantic construction that accepts the parsed
payload, summarised by its length. -/
def validateOkLen : List Char → Option Nat := fun s => some s.length

/-- C7 witness: the source test's Gizmo payload, fenced and unfenced, through
the Anthropic adapter. -/
theorem ainvoke_fenced_json_equals_unfenced_witness :
    AnthropicLLM.ainvoke loadsId validateOkLen true
        (.ok ⟨[⟨some (("```json\n".toList) ++ jsonGizmo ++ ("\n```".toList))⟩]⟩)
      = AnthropicLLM.ainvoke loadsId validateOkLen true (.ok ⟨[⟨some jsonGizmo⟩]⟩)
    ∧ (AnthropicLLM.ainvoke loadsId validateOkLen true (.ok ⟨[⟨some jsonGizmo⟩]⟩)).1
      = LLMResult.structured (pyStrip jsonGizmo).length :=
  ainvoke_fenced_json_equals_unfenced loadsId validateOkLen jsonGizmo
    (pyStrip jsonGizmo) ((pyStrip jsonGizmo).length)
    (by decide) (by decide) (by decide) rfl rfl
